import Mathlib

/-!
Verification of the jarviscc camera subsystem against its specification.

The definitions below are a shallow embedding of the repository's code:

* `src/unnamed/part_002` (the api service module): `normalizeBaseUrl`,
  `getApiBaseUrl`, `getLanBackendFallback`, `looksLikeFrontendDevOrigin`;
* `src/frontend/src/pages/Settings.tsx`: `handleSaveApiUrl`;
* `src/frontend/src/pages/Cameras.tsx`: the connection-test handler
  `handleTestConnection` of `EditCameraModal`, its lockout countdown effect,
  the Test Connection button enablement, and the `DiscoverModal`
  dedup/selection logic;
* `src/frontend/src/components/CameraCard.tsx`: `stopStream`;
* the backend Network Prober and Stream Session Manager, which are not part
  of the checked sources, are modelled from the specification (marked
  `Modelled from the spec:` on each definition).

JS strings are Lean `String`s, JS numbers that hold counts or seconds are
`Nat`, absent JSON fields are `Option`, and JS truthiness on strings and
numbers is written out explicitly (`= ""` and `= 0` checks).
-/

namespace Jarvis

/-! ## Strings: JS trim and the URL normalizer (part_002, Settings.tsx) -/

/-- The characters stripped by JS `String.prototype.trim()`: the ECMAScript
WhiteSpace production (TAB, VT, FF, SP, NBSP, ZWNBSP and the Unicode
space-separator category Zs) plus the LineTerminator production
(LF, CR, LS, PS). -/
def isJsWs (c : Char) : Bool :=
  c = '\t' || c = '\x0b' || c = '\x0c' || c = ' ' || c.toNat = 0xA0 ||
    c.toNat = 0xFEFF || c.toNat = 0x1680 ||
    (0x2000 ≤ c.toNat && c.toNat ≤ 0x200A) ||
    c.toNat = 0x202F || c.toNat = 0x205F || c.toNat = 0x3000 ||
    c = '\n' || c = '\r' || c.toNat = 0x2028 || c.toNat = 0x2029

/-- Remove the longest suffix of characters satisfying `p`. -/
def rstrip (p : Char → Bool) (l : List Char) : List Char :=
  (l.reverse.dropWhile p).reverse

/-- Model of JS `String.prototype.trim()`: strip whitespace from both ends. -/
def jsTrim (s : String) : String :=
  String.mk (rstrip isJsWs (s.data.dropWhile isJsWs))

/-- `normalizeBaseUrl` from the api service module:
`(url) => url.trim().replace(/\/+$/, '')` — trim, then delete the trailing
run of slashes. -/
def normalizeBaseUrl (s : String) : String :=
  String.mk (rstrip (fun c => c = '/') (jsTrim s).data)

/-- The value stored by `handleSaveApiUrl` in Settings.tsx:
`apiUrl.trim().replace(/\/+$/, '')`. -/
def handleSaveApiUrlStored (apiUrl : String) : String :=
  String.mk (rstrip (fun c => c = '/') (jsTrim apiUrl).data)

/-- The first element of the list, if any, fails `p`. -/
def headOk (p : Char → Bool) : List Char → Bool
  | [] => true
  | c :: _ => !(p c)

theorem headOk_dropWhile (p : Char → Bool) (l : List Char) :
    headOk p (l.dropWhile p) = true := by
  induction l with
  | nil => rfl
  | cons c t ih =>
    by_cases hc : p c
    · simpa [List.dropWhile, hc] using ih
    · simp [List.dropWhile, hc, headOk]

theorem dropWhile_eq_self_of_headOk (p : Char → Bool) (l : List Char)
    (h : headOk p l = true) : l.dropWhile p = l := by
  cases l with
  | nil => rfl
  | cons c t =>
    simp only [headOk, Bool.not_eq_true'] at h
    simp [List.dropWhile, h]

theorem dropWhile_idem (p : Char → Bool) (l : List Char) :
    (l.dropWhile p).dropWhile p = l.dropWhile p :=
  dropWhile_eq_self_of_headOk p _ (headOk_dropWhile p l)

theorem rstrip_idem (p : Char → Bool) (l : List Char) :
    rstrip p (rstrip p l) = rstrip p l := by
  unfold rstrip
  rw [List.reverse_reverse, dropWhile_idem]

theorem headOk_rstrip (p q : Char → Bool) (l : List Char)
    (h : headOk p l = true) : headOk p (rstrip q l) = true := by
  cases l with
  | nil => rfl
  | cons c t =>
    simp only [rstrip, List.reverse_cons, List.dropWhile_append]
    by_cases he : (t.reverse.dropWhile q).isEmpty
    · by_cases hc : q c
      · simp [he, List.dropWhile, hc, headOk]
      · simpa [he, List.dropWhile, hc, headOk] using h
    · simpa [he, List.reverse_append, headOk] using h

theorem headOk_rstrip_self (q : Char → Bool) (l : List Char) :
    headOk q (rstrip q l).reverse = true := by
  simp only [rstrip, List.reverse_reverse]
  exact headOk_dropWhile q l.reverse

theorem rstrip_eq_self_of_headOk_reverse (p : Char → Bool) (l : List Char)
    (h : headOk p l.reverse = true) : rstrip p l = l := by
  unfold rstrip
  rw [dropWhile_eq_self_of_headOk p _ h, List.reverse_reverse]

theorem handleSaveApiUrlStored_eq : handleSaveApiUrlStored = normalizeBaseUrl := rfl

theorem normalizeBaseUrl_normalizeBaseUrl (s : String)
    (h : headOk isJsWs (normalizeBaseUrl s).data.reverse = true) :
    normalizeBaseUrl (normalizeBaseUrl s) = normalizeBaseUrl s := by
  have hm : (normalizeBaseUrl s).data
      = rstrip (fun c => c = '/') (rstrip isJsWs (s.data.dropWhile isJsWs)) := rfl
  have h1 : headOk isJsWs (normalizeBaseUrl s).data = true := by
    rw [hm]
    exact headOk_rstrip _ _ _ (headOk_rstrip _ _ _ (headOk_dropWhile _ _))
  show String.mk (rstrip (fun c => c = '/')
      (rstrip isJsWs ((normalizeBaseUrl s).data.dropWhile isJsWs)))
    = normalizeBaseUrl s
  rw [dropWhile_eq_self_of_headOk _ _ h1,
    rstrip_eq_self_of_headOk_reverse _ _ h, hm, rstrip_idem]
  rfl

/-- C10 (amended): `normalizeBaseUrl` is idempotent on every input whose
normalized form has no trailing whitespace (in particular on every
whitespace-free URL), and under the same condition the value stored by the
Settings page save handler — the same trim-and-strip normalization — is a
fixed point of `normalizeBaseUrl`. Unconditional idempotence fails: see the
counterexample, where stripping the trailing slash exposes a blank. -/
theorem normalizeBaseUrl_idem_of_no_trailing_ws (s : String)
    (h : headOk isJsWs (normalizeBaseUrl s).data.reverse = true) :
    normalizeBaseUrl (normalizeBaseUrl s) = normalizeBaseUrl s ∧
      normalizeBaseUrl (handleSaveApiUrlStored s) = handleSaveApiUrlStored s := by
  constructor
  · exact normalizeBaseUrl_normalizeBaseUrl s h
  · rw [handleSaveApiUrlStored_eq]
    exact normalizeBaseUrl_normalizeBaseUrl s h

/-- C10 witness: a concrete URL with a trailing slash, normalized twice. -/
theorem normalizeBaseUrl_idem_witness :
    normalizeBaseUrl (normalizeBaseUrl "http://localhost:8101/")
        = normalizeBaseUrl "http://localhost:8101/" ∧
      normalizeBaseUrl (handleSaveApiUrlStored "http://localhost:8101/")
        = handleSaveApiUrlStored "http://localhost:8101/" :=
  normalizeBaseUrl_idem_of_no_trailing_ws "http://localhost:8101/" (by decide)

/-- C10 counterexample: `normalizeBaseUrl` is not idempotent as claimed.
On `"a /"` one application yields `"a "` (the trim runs before the slash
strip, so the blank uncovered by deleting the slash survives), and a second
application yields `"a"`; the Settings-stored value `"a "` is likewise not a
fixed point. -/
theorem normalizeBaseUrl_not_idempotent :
    normalizeBaseUrl (normalizeBaseUrl "a /") ≠ normalizeBaseUrl "a /" ∧
      normalizeBaseUrl (handleSaveApiUrlStored "a /") ≠ handleSaveApiUrlStored "a /" :=
  ⟨by decide, by decide⟩

/-! ## Credential test: `handleTestConnection` of `EditCameraModal`
(src/frontend/src/pages/Cameras.tsx, lines 656-758) -/

/-- The `testStatus` React state of `EditCameraModal`. -/
inductive TestStatus
  | idle
  | testing
  | success
  | error
  | locked
deriving DecidableEq, Repr

/-- The JSON body returned by `POST /cameras/:id/test-rtsp`, as read by the
handler: `success` and `locked` are truthiness checks on possibly-absent
booleans (absent reads as `false`), `message` / `lock_time` /
`attempts_remaining` are possibly-absent fields. -/
structure TestResponse where
  success : Bool
  locked : Bool
  message : Option String
  lock_time : Option Nat
  attempts_remaining : Option Nat
deriving DecidableEq, Repr

/-- The camera form fields of `EditCameraModal` that the test handler reads. -/
structure TestForm where
  ip_address : String
  port : Nat
  username : String
  password : String
  rtsp_path : String
deriving DecidableEq, Repr

/-- The React state touched by the test handler and the countdown effect. -/
structure TestUiState where
  testStatus : TestStatus
  testMessage : String
  lockTimeRemaining : Option Nat
  attemptsRemaining : Option Nat
deriving DecidableEq, Repr

/-- The request body built at lines 714-728: `password` is included only
when non-empty (`if (formData.password)`). -/
structure TestPayload where
  ip : String
  port : Nat
  username : String
  rtsp_path : String
  password : Option String
deriving DecidableEq, Repr

/-- JS `x || d` on an optional string: the default replaces both an absent
and an empty (falsy) message. -/
def jsOrStr (m : Option String) (d : String) : String :=
  match m with
  | some s => if s = "" then d else s
  | none => d

/-- Line 697: `const requiresPasswordInput = !hasExistingCredentials || changePassword`. -/
def requiresPasswordInput (hasExistingCredentials changePassword : Bool) : Bool :=
  !hasExistingCredentials || changePassword

/-- The payload of the single `fetch` call (lines 714-733). -/
def mkPayload (form : TestForm) : TestPayload :=
  { ip := form.ip_address
    port := form.port
    username := form.username
    rtsp_path := form.rtsp_path
    password := if form.password = "" then none else some form.password }

/-- State updates of lines 738-753, applied to the state as it stands after
the pre-request resets: `success` wins first; else `locked`; else failure.
`lock_time` is stored only when truthy (so a present `0` is skipped);
`attempts_remaining` is stored whenever not `undefined`. -/
def applyTestResult (r : TestResponse) (st : TestUiState) : TestUiState :=
  if r.success then
    { st with testStatus := .success
              testMessage := jsOrStr r.message "Connection successful!" }
  else if r.locked then
    { st with testStatus := .locked
              testMessage := jsOrStr r.message "Account is locked"
              lockTimeRemaining :=
                match r.lock_time with
                | some t => if t = 0 then st.lockTimeRemaining else some t
                | none => st.lockTimeRemaining }
  else
    { st with testStatus := .error
              testMessage := jsOrStr r.message "Connection failed"
              attemptsRemaining :=
                match r.attempts_remaining with
                | some n => some n
                | none => st.attemptsRemaining }

/-- `handleTestConnection` (lines 696-758). `network` is the observable
result of the one `fetch`: `some r` when a JSON body `r` was parsed, `none`
when the request or parse threw (the `catch` path). The first component of
the result collects every request issued during the call. -/
def handleTestConnection (hasExistingCredentials changePassword : Bool)
    (form : TestForm) (network : Option TestResponse) (st : TestUiState) :
    List TestPayload × TestUiState :=
  if form.username = "" ∨
      (requiresPasswordInput hasExistingCredentials changePassword ∧ form.password = "") then
    ([], { st with
            testStatus := .error
            testMessage :=
              if requiresPasswordInput hasExistingCredentials changePassword then
                "Username and password are required"
              else "Username is required" })
  else
    let st1 : TestUiState :=
      { testStatus := .testing, testMessage := "",
        lockTimeRemaining := none, attemptsRemaining := none }
    match network with
    | some r => ([mkPayload form], applyTestResult r st1)
    | none => ([mkPayload form],
        { st1 with testStatus := .error, testMessage := "Failed to test connection" })

/-- C5: a connection test with a missing username, or a missing password
when one is required (no stored credential, or a password change in
progress), is rejected with an error message and issues no request. -/
theorem test_rejects_missing_fields_before_io (hasExistingCredentials changePassword : Bool)
    (form : TestForm) (network : Option TestResponse) (st : TestUiState)
    (h : form.username = "" ∨
      (requiresPasswordInput hasExistingCredentials changePassword ∧ form.password = "")) :
    (handleTestConnection hasExistingCredentials changePassword form network st).1 = [] ∧
      (handleTestConnection hasExistingCredentials changePassword form network st).2.testStatus
        = .error ∧
      (handleTestConnection hasExistingCredentials changePassword form network st).2.testMessage
        ≠ "" := by
  unfold handleTestConnection
  rw [if_pos h]
  refine ⟨rfl, rfl, ?_⟩
  by_cases hr : requiresPasswordInput hasExistingCredentials changePassword <;> simp [hr]

/-- C5 witness: an empty username with stored credentials issues no request. -/
theorem test_rejects_missing_fields_witness :
    (handleTestConnection true false
        ⟨"192.168.1.10", 554, "", "", "/cam"⟩ none
        ⟨.idle, "", none, none⟩).1 = [] ∧
      (handleTestConnection true false
          ⟨"192.168.1.10", 554, "", "", "/cam"⟩ none
          ⟨.idle, "", none, none⟩).2.testStatus = .error ∧
      (handleTestConnection true false
          ⟨"192.168.1.10", 554, "", "", "/cam"⟩ none
          ⟨.idle, "", none, none⟩).2.testMessage ≠ "" :=
  test_rejects_missing_fields_before_io true false _ none _ (Or.inl rfl)

/-- C3: when the required fields are present, the handler issues exactly one
request, aimed at the form's target, and does so for every network outcome
alike — no retry happens on failure, lockout, or thrown transport error. -/
theorem test_makes_exactly_one_request (hasExistingCredentials changePassword : Bool)
    (form : TestForm) (network : Option TestResponse) (st : TestUiState)
    (hu : form.username ≠ "")
    (hp : requiresPasswordInput hasExistingCredentials changePassword = true →
      form.password ≠ "") :
    (handleTestConnection hasExistingCredentials changePassword form network st).1
      = [mkPayload form] ∧
      (mkPayload form).ip = form.ip_address ∧ (mkPayload form).port = form.port := by
  have hcond : ¬ (form.username = "" ∨
      (requiresPasswordInput hasExistingCredentials changePassword ∧ form.password = "")) := by
    rintro (h | ⟨h1, h2⟩)
    · exact hu h
    · exact hp h1 h2
  unfold handleTestConnection
  rw [if_neg hcond]
  cases network with
  | some r => exact ⟨rfl, rfl, rfl⟩
  | none => exact ⟨rfl, rfl, rfl⟩

/-- C3 witness: a filled form with a thrown fetch still issues one request. -/
theorem test_makes_exactly_one_request_witness :
    (handleTestConnection false false
        ⟨"192.168.1.10", 554, "admin", "pw", "/cam"⟩ none
        ⟨.idle, "", none, none⟩).1
      = [mkPayload ⟨"192.168.1.10", 554, "admin", "pw", "/cam"⟩] ∧
      (mkPayload ⟨"192.168.1.10", 554, "admin", "pw", "/cam"⟩).ip = "192.168.1.10" ∧
      (mkPayload ⟨"192.168.1.10", 554, "admin", "pw", "/cam"⟩).port = 554 :=
  test_makes_exactly_one_request false false _ none _ (by decide) (fun _ => by decide)

/-- C2 (amended): every parsed test-rtsp response is classified into exactly
one of three mutually exclusive outcomes — success when `success` is true;
locked when `success` is false and `locked` is true, recording the
server-reported `lock_time` when it is present and nonzero and treating the
duration as unknown when it is absent or zero (the handler tests the field
for JS truthiness, so a present `0` is skipped); otherwise an auth/transport
failure, recording `attempts_remaining` exactly when the response carries
it. -/
theorem test_outcome_classification (hasExistingCredentials changePassword : Bool)
    (form : TestForm) (r : TestResponse) (st : TestUiState)
    (hu : form.username ≠ "")
    (hp : requiresPasswordInput hasExistingCredentials changePassword = true →
      form.password ≠ "") :
    (r.success = true →
      (handleTestConnection hasExistingCredentials changePassword form (some r) st).2.testStatus
        = .success) ∧
      (r.success = false → r.locked = true →
        (handleTestConnection hasExistingCredentials changePassword form (some r) st).2.testStatus
          = .locked ∧
          (∀ t, r.lock_time = some t → t ≠ 0 →
            (handleTestConnection hasExistingCredentials changePassword form
              (some r) st).2.lockTimeRemaining = some t) ∧
          (r.lock_time = none ∨ r.lock_time = some 0 →
            (handleTestConnection hasExistingCredentials changePassword form
              (some r) st).2.lockTimeRemaining = none)) ∧
      (r.success = false → r.locked = false →
        (handleTestConnection hasExistingCredentials changePassword form (some r) st).2.testStatus
          = .error ∧
          (handleTestConnection hasExistingCredentials changePassword form
            (some r) st).2.attemptsRemaining = r.attempts_remaining) := by
  have hcond : ¬ (form.username = "" ∨
      (requiresPasswordInput hasExistingCredentials changePassword ∧ form.password = "")) := by
    rintro (h | ⟨h1, h2⟩)
    · exact hu h
    · exact hp h1 h2
  unfold handleTestConnection
  rw [if_neg hcond]
  refine ⟨fun hs => ?_, fun hs hl => ⟨?_, fun t ht htz => ?_, fun ht => ?_⟩,
    fun hs hl => ⟨?_, ?_⟩⟩
  · simp [applyTestResult, hs]
  · simp [applyTestResult, hs, hl]
  · simp [applyTestResult, hs, hl, ht, htz]
  · rcases ht with ht | ht <;> simp [applyTestResult, hs, hl, ht]
  · simp [applyTestResult, hs, hl]
  · cases har : r.attempts_remaining <;> simp [applyTestResult, hs, hl, har]

/-- C2 witness: a locked response carrying `lock_time = 300` is classified
as locked with the countdown recorded. -/
theorem test_outcome_classification_witness :
    ((⟨false, true, none, some 300, none⟩ : TestResponse).success = true →
      (handleTestConnection true false ⟨"192.168.1.10", 554, "admin", "", "/cam"⟩
        (some ⟨false, true, none, some 300, none⟩) ⟨.idle, "", none, none⟩).2.testStatus
        = .success) ∧
      ((⟨false, true, none, some 300, none⟩ : TestResponse).success = false →
        (⟨false, true, none, some 300, none⟩ : TestResponse).locked = true →
        (handleTestConnection true false ⟨"192.168.1.10", 554, "admin", "", "/cam"⟩
          (some ⟨false, true, none, some 300, none⟩) ⟨.idle, "", none, none⟩).2.testStatus
          = .locked ∧
          (∀ t, (⟨false, true, none, some 300, none⟩ : TestResponse).lock_time = some t →
            t ≠ 0 →
            (handleTestConnection true false ⟨"192.168.1.10", 554, "admin", "", "/cam"⟩
              (some ⟨false, true, none, some 300, none⟩)
              ⟨.idle, "", none, none⟩).2.lockTimeRemaining = some t) ∧
          ((⟨false, true, none, some 300, none⟩ : TestResponse).lock_time = none ∨
            (⟨false, true, none, some 300, none⟩ : TestResponse).lock_time = some 0 →
            (handleTestConnection true false ⟨"192.168.1.10", 554, "admin", "", "/cam"⟩
              (some ⟨false, true, none, some 300, none⟩)
              ⟨.idle, "", none, none⟩).2.lockTimeRemaining = none)) ∧
      ((⟨false, true, none, some 300, none⟩ : TestResponse).success = false →
        (⟨false, true, none, some 300, none⟩ : TestResponse).locked = false →
        (handleTestConnection true false ⟨"192.168.1.10", 554, "admin", "", "/cam"⟩
          (some ⟨false, true, none, some 300, none⟩) ⟨.idle, "", none, none⟩).2.testStatus
          = .error ∧
          (handleTestConnection true false ⟨"192.168.1.10", 554, "admin", "", "/cam"⟩
            (some ⟨false, true, none, some 300, none⟩)
            ⟨.idle, "", none, none⟩).2.attemptsRemaining
            = (⟨false, true, none, some 300, none⟩ : TestResponse).attempts_remaining) :=
  test_outcome_classification true false ⟨"192.168.1.10", 554, "admin", "", "/cam"⟩
    ⟨false, true, none, some 300, none⟩ ⟨.idle, "", none, none⟩ (by decide) (by decide)

/-- C2 counterexample: a locked response that carries `lock_time = 0` — the
field is present — is classified as locked but the countdown is *not*
recorded (the duration is treated as unknown), because line 744 tests
`result.lock_time` for truthiness rather than presence. -/
theorem test_lock_time_present_zero_not_recorded :
    ((⟨false, true, none, some 0, none⟩ : TestResponse).lock_time).isSome = true ∧
      (handleTestConnection true false ⟨"192.168.1.10", 554, "admin", "", "/cam"⟩
        (some ⟨false, true, none, some 0, none⟩) ⟨.idle, "", none, none⟩).2.testStatus
        = .locked ∧
      (handleTestConnection true false ⟨"192.168.1.10", 554, "admin", "", "/cam"⟩
        (some ⟨false, true, none, some 0, none⟩)
        ⟨.idle, "", none, none⟩).2.lockTimeRemaining = none := by
  decide

/-! ## Lockout countdown and the Test Connection button
(Cameras.tsx lines 675-688 and 900-930) -/

/-- The `EditCameraModal` state read by the Test Connection button. -/
structure ModalState where
  form : TestForm
  hasExistingCredentials : Bool
  changePassword : Bool
  ui : TestUiState
deriving DecidableEq, Repr

/-- The `disabled` expression of the Test Connection button (lines 903-909). -/
def testButtonDisabled (m : ModalState) : Bool :=
  decide (m.ui.testStatus = .testing) || decide (m.ui.testStatus = .locked) ||
    decide (m.form.ip_address = "") || decide (m.form.username = "") ||
    (requiresPasswordInput m.hasExistingCredentials m.changePassword &&
      decide (m.form.password = ""))

/-- One second of the countdown effect (lines 676-688): the interval exists
only while `lockTimeRemaining` is a positive number; each firing decrements,
and the firing that sees `1` resets status to idle, clears the message and
nulls the countdown. -/
def tick (st : TestUiState) : TestUiState :=
  match st.lockTimeRemaining with
  | some t =>
    if 0 < t then
      if 1 < t then { st with lockTimeRemaining := some (t - 1) }
      else { st with testStatus := .idle, testMessage := "", lockTimeRemaining := none }
    else st
  | none => st

/-- The username field `onChange` (lines 813-816): update and reset status. -/
def editUsername (m : ModalState) (s : String) : ModalState :=
  { m with form := { m.form with username := s }, ui := { m.ui with testStatus := .idle } }

/-- The password field `onChange` (lines 848-851): update and reset status. -/
def editPassword (m : ModalState) (s : String) : ModalState :=
  { m with form := { m.form with password := s }, ui := { m.ui with testStatus := .idle } }

/-- The RTSP path field `onChange` (lines 887-890): update and reset status. -/
def editRtspPath (m : ModalState) (s : String) : ModalState :=
  { m with form := { m.form with rtsp_path := s }, ui := { m.ui with testStatus := .idle } }

theorem tick_locked_progress (t : Nat) :
    ∀ ui : TestUiState, ui.testStatus = .locked → ui.lockTimeRemaining = some t →
      0 < t →
      (∀ k, k < t → (tick^[k] ui).testStatus = .locked) ∧
        (tick^[t] ui).testStatus = .idle ∧ (tick^[t] ui).lockTimeRemaining = none := by
  induction t with
  | zero => intro ui _ _ ht; exact absurd ht (by simp)
  | succ n ih =>
    intro ui hs hl _
    cases n with
    | zero =>
      have h1 : tick ui
          = { ui with testStatus := .idle, testMessage := "", lockTimeRemaining := none } := by
        unfold tick
        rw [hl]
        norm_num
      refine ⟨fun k hk => ?_, ?_, ?_⟩
      · rw [Nat.lt_one_iff] at hk
        subst hk
        simpa using hs
      · rw [Function.iterate_succ_apply, Function.iterate_zero_apply, h1]
      · rw [Function.iterate_succ_apply, Function.iterate_zero_apply, h1]
    | succ p =>
      have h1 : tick ui = { ui with lockTimeRemaining := some (p + 1) } := by
        unfold tick
        rw [hl]
        norm_num
      have ih' := ih (tick ui) (by rw [h1]; exact hs) (by rw [h1]) (Nat.succ_pos p)
      refine ⟨fun k hk => ?_, ?_, ?_⟩
      · cases k with
        | zero => simpa using hs
        | succ j =>
          rw [Function.iterate_succ_apply]
          exact ih'.1 j (Nat.lt_of_succ_lt_succ hk)
      · rw [Function.iterate_succ_apply]
        exact ih'.2.1
      · rw [Function.iterate_succ_apply]
        exact ih'.2.2

/-- C4 (amended): after a locked result carrying a countdown of `t` seconds,
as long as the only events are countdown ticks the Test Connection button
stays disabled for the whole window, and the tick that exhausts the
countdown returns the status to idle with the countdown cleared. The
unrestricted claim fails: editing the username, password or RTSP-path field
resets the status to idle and re-enables the button before the window
elapses (see the counterexample). -/
theorem locked_disables_test_until_countdown_elapses (m : ModalState) (t : Nat)
    (hs : m.ui.testStatus = .locked) (hl : m.ui.lockTimeRemaining = some t)
    (ht : 0 < t) :
    (∀ k, k < t → testButtonDisabled { m with ui := tick^[k] m.ui } = true) ∧
      (tick^[t] m.ui).testStatus = .idle ∧ (tick^[t] m.ui).lockTimeRemaining = none := by
  obtain ⟨hall, hidle, hnone⟩ := tick_locked_progress t m.ui hs hl ht
  refine ⟨fun k hk => ?_, hidle, hnone⟩
  simp [testButtonDisabled, hall k hk]

/-- A modal that has just received a locked result with a 2-second countdown. -/
def lockedModal2 : ModalState :=
  { form := ⟨"192.168.1.10", 554, "admin", "", "/cam"⟩
    hasExistingCredentials := true
    changePassword := false
    ui := ⟨.locked, "Account is locked", some 2, none⟩ }

/-- C4 witness: the 2-second lock window at a concrete modal state. -/
theorem locked_disables_test_witness :
    (∀ k, k < 2 →
        testButtonDisabled { lockedModal2 with ui := tick^[k] lockedModal2.ui } = true) ∧
      (tick^[2] lockedModal2.ui).testStatus = .idle ∧
      (tick^[2] lockedModal2.ui).lockTimeRemaining = none :=
  locked_disables_test_until_countdown_elapses lockedModal2 2 rfl rfl (by decide)

/-- The modal state produced by the handler from a locked response that
reported a 300-second lock window. -/
def lockedModalRecv : ModalState :=
  { form := ⟨"192.168.1.10", 554, "admin", "", "/cam"⟩
    hasExistingCredentials := true
    changePassword := false
    ui := (handleTestConnection true false ⟨"192.168.1.10", 554, "admin", "", "/cam"⟩
      (some ⟨false, true, none, some 300, none⟩) ⟨.idle, "", none, none⟩).2 }

/-- C4 counterexample: right after a locked result carrying a 300-second
window the button is disabled, but one username-field edit resets the
status to idle and re-enables it while the countdown still reads 300, and a
further test attempt then issues a request — so a test attempt *can* be
issued before the reported lock window elapses. -/
theorem locked_test_reenabled_by_edit :
    testButtonDisabled lockedModalRecv = true ∧
      lockedModalRecv.ui.lockTimeRemaining = some 300 ∧
      testButtonDisabled (editUsername lockedModalRecv "admin2") = false ∧
      (editUsername lockedModalRecv "admin2").ui.lockTimeRemaining = some 300 ∧
      (handleTestConnection (editUsername lockedModalRecv "admin2").hasExistingCredentials
        (editUsername lockedModalRecv "admin2").changePassword
        (editUsername lockedModalRecv "admin2").form none
        (editUsername lockedModalRecv "admin2").ui).1 ≠ [] := by
  decide

/-! ## Discovery dedup and selection (`DiscoverModal`, Cameras.tsx 347-457) -/

/-- The camera-record fields relevant to discovery dedup. -/
structure CameraRec where
  id : Nat
  ip_address : String
  port : Nat
deriving DecidableEq, Repr

/-- One entry returned by `GET /cameras/discover`. -/
structure CameraDiscovery where
  ip_address : String
  port : Nat
  brand : String
  name : String
deriving DecidableEq, Repr

/-- Line 189: `existingIps = cameras?.map((c) => c.ip_address)` — the modal
receives only the IP addresses of the already-added cameras. -/
def existingIpsOf (cams : List CameraRec) : List String :=
  cams.map (fun c => c.ip_address)

/-- Line 375: discovered entries whose `ip_address` is not in `existingSet`. -/
def availableCameras (existingIps : List String) (discovered : List CameraDiscovery) :
    List CameraDiscovery :=
  discovered.filter (fun c => !(existingIps.contains c.ip_address))

/-- Line 376: discovered entries whose `ip_address` is in `existingSet`. -/
def existingCameras (existingIps : List String) (discovered : List CameraDiscovery) :
    List CameraDiscovery :=
  discovered.filter (fun c => existingIps.contains c.ip_address)

/-- Lines 384-395 `toggleSelection`: an IP in `existingSet` cannot be
selected; otherwise the IP is removed from or added to the selection. -/
def toggleSelection (existingIps selectedIps : List String) (ip : String) : List String :=
  if existingIps.contains ip then selectedIps
  else if selectedIps.contains ip then selectedIps.filter (fun x => !(x == ip))
  else ip :: selectedIps

/-- C6 (amended): discovery results are deduplicated against the existing
camera set by `ip_address` (host) alone — a discovered entry is classified
as already-added exactly when some existing camera has the same host,
irrespective of either side's port, and an already-added host can never be
selected. The claimed `(host, port)` key is refuted by the counterexample. -/
theorem discovery_dedup_by_host_only (cams : List CameraRec)
    (discovered : List CameraDiscovery) (c : CameraDiscovery)
    (selectedIps : List String) (ip : String) :
    (c ∈ existingCameras (existingIpsOf cams) discovered ↔
      c ∈ discovered ∧ ∃ cam ∈ cams, cam.ip_address = c.ip_address) ∧
      (c ∈ availableCameras (existingIpsOf cams) discovered ↔
        c ∈ discovered ∧ ∀ cam ∈ cams, cam.ip_address ≠ c.ip_address) ∧
      ((∃ cam ∈ cams, cam.ip_address = ip) →
        toggleSelection (existingIpsOf cams) selectedIps ip = selectedIps) := by
  refine ⟨?_, ?_, ?_⟩
  · simp [existingCameras, existingIpsOf, List.mem_filter]
  · simp [availableCameras, existingIpsOf, List.mem_filter]
  · intro h
    obtain ⟨cam, hc, he⟩ := h
    have hmem : ip ∈ existingIpsOf cams := by
      simp only [existingIpsOf, List.mem_map]
      exact ⟨cam, hc, he⟩
    simp [toggleSelection, hmem]

/-- C6 witness: with one existing camera at host 10.0.0.5, a discovered
entry for that host is classified already-added and cannot be selected. -/
theorem discovery_dedup_by_host_only_witness :
    ((⟨"10.0.0.5", 8554, "dahua", "cam"⟩ : CameraDiscovery)
        ∈ existingCameras (existingIpsOf [⟨1, "10.0.0.5", 554⟩])
          [⟨"10.0.0.5", 8554, "dahua", "cam"⟩] ↔
      (⟨"10.0.0.5", 8554, "dahua", "cam"⟩ : CameraDiscovery)
          ∈ [(⟨"10.0.0.5", 8554, "dahua", "cam"⟩ : CameraDiscovery)] ∧
        ∃ cam ∈ [(⟨1, "10.0.0.5", 554⟩ : CameraRec)], cam.ip_address = "10.0.0.5") ∧
      ((⟨"10.0.0.5", 8554, "dahua", "cam"⟩ : CameraDiscovery)
          ∈ availableCameras (existingIpsOf [⟨1, "10.0.0.5", 554⟩])
            [⟨"10.0.0.5", 8554, "dahua", "cam"⟩] ↔
        (⟨"10.0.0.5", 8554, "dahua", "cam"⟩ : CameraDiscovery)
            ∈ [(⟨"10.0.0.5", 8554, "dahua", "cam"⟩ : CameraDiscovery)] ∧
          ∀ cam ∈ [(⟨1, "10.0.0.5", 554⟩ : CameraRec)], cam.ip_address ≠ "10.0.0.5") ∧
      ((∃ cam ∈ [(⟨1, "10.0.0.5", 554⟩ : CameraRec)], cam.ip_address = "10.0.0.5") →
        toggleSelection (existingIpsOf [⟨1, "10.0.0.5", 554⟩]) [] "10.0.0.5" = []) :=
  discovery_dedup_by_host_only [⟨1, "10.0.0.5", 554⟩]
    [⟨"10.0.0.5", 8554, "dahua", "cam"⟩] ⟨"10.0.0.5", 8554, "dahua", "cam"⟩ [] "10.0.0.5"

/-- C6 counterexample: the uniqueness key is not `(host, port)`. The sole
existing camera is (10.0.0.5, 554) and the discovered endpoint is
(10.0.0.5, 8554) — a different `(host, port)` pair — yet the discovered
entry is classified as already-added (it lands in `existingCameras`, not in
`availableCameras`) and its host cannot be selected. -/
theorem discovery_dedup_ignores_port :
    ((⟨"10.0.0.5", 8554, "dahua", "cam"⟩ : CameraDiscovery).ip_address,
        (⟨"10.0.0.5", 8554, "dahua", "cam"⟩ : CameraDiscovery).port)
      ≠ ((⟨1, "10.0.0.5", 554⟩ : CameraRec).ip_address,
        (⟨1, "10.0.0.5", 554⟩ : CameraRec).port) ∧
      existingCameras (existingIpsOf [⟨1, "10.0.0.5", 554⟩])
          [⟨"10.0.0.5", 8554, "dahua", "cam"⟩]
        = [⟨"10.0.0.5", 8554, "dahua", "cam"⟩] ∧
      availableCameras (existingIpsOf [⟨1, "10.0.0.5", 554⟩])
          [⟨"10.0.0.5", 8554, "dahua", "cam"⟩] = [] ∧
      toggleSelection (existingIpsOf [⟨1, "10.0.0.5", 554⟩]) [] "10.0.0.5" = [] := by
  decide

/-! ## Stream Session Manager (modelled from the spec, sections 3-5) -/

/-- Modelled from the spec: the session states of section 4.3; the backend
Stream Session Manager is not among the checked sources. -/
inductive SessionState
  | starting
  | live
  | stopping
  | stopped
  | failed (reason : String)
deriving DecidableEq, Repr

/-- `Stopped` and `Failed` are terminal; the rest are non-terminal. -/
def SessionState.isNonTerminal : SessionState → Bool
  | .starting => true
  | .live => true
  | .stopping => true
  | .stopped => false
  | .failed _ => false

/-- Modelled from the spec: one stream session — state, playback endpoint,
and the exclusively owned external transcoding process handle. -/
structure StreamSession where
  state : SessionState
  streamUrl : String
  processId : Nat
deriving DecidableEq, Repr

/-- Modelled from the spec: the in-memory Session Store plus the manager's
bookkeeping. `spawnCount` counts every external process ever spawned, so
that spawns are observable; `nextPid` supplies fresh process handles. -/
structure Manager where
  sessions : List (Nat × StreamSession)
  nextPid : Nat
  spawnCount : Nat
deriving DecidableEq, Repr

/-- The Session Store read: the session for a camera, if any. -/
def Manager.lookupSession (m : Manager) (cameraId : Nat) : Option StreamSession :=
  (m.sessions.find? (fun e => e.1 == cameraId)).map (fun e => e.2)

/-- The playback endpoint for a camera's segmented stream. -/
def mkStreamUrl (cameraId : Nat) : String :=
  "/api/streams/" ++ toString cameraId ++ "/index.m3u8"

/-- The result a `start` caller observes. -/
structure StartResult where
  streamUrl : String
  spawned : Bool
deriving DecidableEq, Repr

/-- Modelled from the spec: create the fresh `Starting` session with a
newly spawned transcoding process and record it in the store. -/
def Manager.startFresh (m : Manager) (cameraId : Nat) : Manager :=
  { sessions := (cameraId, ⟨.starting, mkStreamUrl cameraId, m.nextPid⟩)
      :: m.sessions.filter (fun e => !(e.1 == cameraId))
    nextPid := m.nextPid + 1
    spawnCount := m.spawnCount + 1 }

/-- Modelled from the spec: `start(camera_id)` of section 4.3. A camera with
a session already `Starting`/`Live` is satisfied by the existing session
(idempotent join, no spawn); otherwise a fresh session in `Starting` is
created with exactly one newly spawned transcoding process. Section 5
serializes all mutation of one camera's session, so racing `start` calls
execute as consecutive atomic calls. -/
def Manager.start (m : Manager) (cameraId : Nat) : StartResult × Manager :=
  match m.lookupSession cameraId with
  | some s =>
    if s.state = .starting ∨ s.state = .live then
      ({ streamUrl := s.streamUrl, spawned := false }, m)
    else
      (⟨mkStreamUrl cameraId, true⟩, m.startFresh cameraId)
  | none => (⟨mkStreamUrl cameraId, true⟩, m.startFresh cameraId)

/-- Modelled from the spec: `stop(camera_id)` of section 4.3 — with no
session it is a no-op success; otherwise the process is torn down and the
entry removed. Both paths acknowledge without error. -/
def Manager.stop (m : Manager) (cameraId : Nat) : Manager :=
  match m.lookupSession cameraId with
  | none => m
  | some _ => { m with sessions := m.sessions.filter (fun e => !(e.1 == cameraId)) }

theorem start_eq_of_lookup_none (m : Manager) (cameraId : Nat)
    (h : m.lookupSession cameraId = none) :
    m.start cameraId = (⟨mkStreamUrl cameraId, true⟩, m.startFresh cameraId) := by
  unfold Manager.start
  rw [h]

theorem start_eq_of_lookup_terminal (m : Manager) (cameraId : Nat) (s : StreamSession)
    (h : m.lookupSession cameraId = some s)
    (hns : ¬ (s.state = .starting ∨ s.state = .live)) :
    m.start cameraId = (⟨mkStreamUrl cameraId, true⟩, m.startFresh cameraId) := by
  unfold Manager.start
  rw [h]
  show (if s.state = .starting ∨ s.state = .live then
      (({ streamUrl := s.streamUrl, spawned := false } : StartResult), m)
    else ((⟨mkStreamUrl cameraId, true⟩ : StartResult), m.startFresh cameraId))
    = ((⟨mkStreamUrl cameraId, true⟩ : StartResult), m.startFresh cameraId)
  exact if_neg hns

theorem start_eq_of_lookup_active (m : Manager) (cameraId : Nat) (s : StreamSession)
    (h : m.lookupSession cameraId = some s)
    (ha : s.state = .starting ∨ s.state = .live) :
    m.start cameraId = (⟨s.streamUrl, false⟩, m) := by
  unfold Manager.start
  rw [h]
  show (if s.state = .starting ∨ s.state = .live then
      (({ streamUrl := s.streamUrl, spawned := false } : StartResult), m)
    else ((⟨mkStreamUrl cameraId, true⟩ : StartResult), m.startFresh cameraId))
    = ((⟨s.streamUrl, false⟩ : StartResult), m)
  exact if_pos ha

theorem lookupSession_startFresh (m : Manager) (cameraId : Nat) :
    (m.startFresh cameraId).lookupSession cameraId
      = some ⟨.starting, mkStreamUrl cameraId, m.nextPid⟩ := by
  simp [Manager.lookupSession, Manager.startFresh, List.find?]

theorem start_eq_fresh (m : Manager) (cameraId : Nat)
    (h : ∀ s, m.lookupSession cameraId = some s → s.state.isNonTerminal = false) :
    m.start cameraId = (⟨mkStreamUrl cameraId, true⟩, m.startFresh cameraId) := by
  cases hs : m.lookupSession cameraId with
  | none => exact start_eq_of_lookup_none m cameraId hs
  | some s =>
    have hterm := h s hs
    refine start_eq_of_lookup_terminal m cameraId s hs ?_
    rintro (h1 | h1) <;> rw [h1] at hterm <;>
      simp [SessionState.isNonTerminal] at hterm

/-- C1: with no non-terminal session for a camera, two `start` calls racing
for it — serialized per camera by section 5, hence executing back to back —
spawn exactly one external process in total: the first call spawns, the
second joins idempotently without spawning, both observe the same
`stream_url`, and the Session Store still maps the camera to a single
session, keeping at most one non-terminal session per camera. -/
theorem start_race_spawns_once (m : Manager) (cameraId : Nat)
    (h : ∀ s, m.lookupSession cameraId = some s → s.state.isNonTerminal = false) :
    ((m.start cameraId).1.spawned = true ∧
        ((m.start cameraId).2.start cameraId).1.spawned = false) ∧
      ((m.start cameraId).2.start cameraId).1.streamUrl = (m.start cameraId).1.streamUrl ∧
      ((m.start cameraId).2.start cameraId).2.spawnCount = m.spawnCount + 1 ∧
      ((m.start cameraId).2.start cameraId).2.lookupSession cameraId
        = some ⟨.starting, mkStreamUrl cameraId, m.nextPid⟩ := by
  have hfirst := start_eq_fresh m cameraId h
  have hsecond : ((m.start cameraId).2.start cameraId)
      = (⟨mkStreamUrl cameraId, false⟩, m.startFresh cameraId) := by
    rw [hfirst]
    exact start_eq_of_lookup_active (m.startFresh cameraId) cameraId
      ⟨.starting, mkStreamUrl cameraId, m.nextPid⟩
      (lookupSession_startFresh m cameraId) (Or.inl rfl)
  rw [hsecond, hfirst]
  exact ⟨⟨rfl, rfl⟩, rfl, rfl, lookupSession_startFresh m cameraId⟩

/-- C1 witness: the race on camera 7 starting from an empty store. -/
theorem start_race_spawns_once_witness :
    (((⟨[], 0, 0⟩ : Manager).start 7).1.spawned = true ∧
        (((⟨[], 0, 0⟩ : Manager).start 7).2.start 7).1.spawned = false) ∧
      (((⟨[], 0, 0⟩ : Manager).start 7).2.start 7).1.streamUrl
        = ((⟨[], 0, 0⟩ : Manager).start 7).1.streamUrl ∧
      (((⟨[], 0, 0⟩ : Manager).start 7).2.start 7).2.spawnCount = (0 : Nat) + 1 ∧
      (((⟨[], 0, 0⟩ : Manager).start 7).2.start 7).2.lookupSession 7
        = some ⟨.starting, mkStreamUrl 7, 0⟩ :=
  start_race_spawns_once ⟨[], 0, 0⟩ 7 (fun s hs => by simp [Manager.lookupSession] at hs)

/-! ## Stopping a stream (CameraCard.tsx 125-142 and spec section 4.3) -/

/-- The `CameraCard` component state that `stopStream` touches. -/
structure CardState where
  isStreaming : Bool
  isLoading : Bool
  error : Option String
  hlsAttached : Bool
  videoSrc : String
deriving DecidableEq, Repr

/-- `stopStream` from CameraCard.tsx: destroy the HLS instance, clear the
video source, await the stop request — any failure is swallowed by the
empty `catch` — and finally leave the not-streaming state. `stopResult` is
the observable outcome of `streamApi.stop`. -/
def stopStream (st : CardState) (_stopResult : Except String Unit) : CardState :=
  { st with hlsAttached := false, videoSrc := "", isStreaming := false }

/-- C8: stopping is idempotent and never surfaces an error — the
spec-modelled backend `stop` with no session for the camera is a no-op
success leaving the store untouched, and the client `stopStream` ends in
the not-streaming state without recording any error, whatever the stop
request returned. -/
theorem stop_idempotent_no_error (m : Manager) (cameraId : Nat)
    (h : m.lookupSession cameraId = none)
    (st : CardState) (r : Except String Unit) :
    m.stop cameraId = m ∧
      (stopStream st r).isStreaming = false ∧
      (stopStream st r).error = st.error := by
  refine ⟨?_, rfl, rfl⟩
  unfold Manager.stop
  rw [h]

/-- C8 witness: an empty store and a failing stop request. -/
theorem stop_idempotent_no_error_witness :
    (⟨[], 0, 0⟩ : Manager).stop 5 = (⟨[], 0, 0⟩ : Manager) ∧
      (stopStream ⟨true, false, none, true, "blob:x"⟩ (.error "network down")).isStreaming
        = false ∧
      (stopStream ⟨true, false, none, true, "blob:x"⟩ (.error "network down")).error = none :=
  stop_idempotent_no_error ⟨[], 0, 0⟩ 5 rfl ⟨true, false, none, true, "blob:x"⟩
    (.error "network down")

/-! ## Network Prober (modelled from the spec, section 4.1) -/

/-- The well-known camera-protocol port probed during discovery. -/
def RTSP_PORT : Nat := 554

/-- Modelled from the spec: one transient discovery result. -/
structure ProbeCandidate where
  host : Nat
  port : Nat
  detected_brand : String
deriving DecidableEq, Repr

/-- Modelled from the spec: a CIDR block — base address plus prefix length.
Addresses are 32-bit IPv4 addresses as naturals. -/
structure Cidr where
  base : Nat
  prefixLen : Nat
deriving DecidableEq, Repr

/-- Number of addresses in the block. -/
def Cidr.size (c : Cidr) : Nat := 2 ^ (32 - c.prefixLen)

/-- Well-formedness: prefix length in range, base aligned to the block and
inside the IPv4 address space. -/
def Cidr.valid (c : Cidr) : Bool :=
  decide (c.prefixLen ≤ 32) && decide (c.base % c.size = 0) &&
    decide (c.base + c.size ≤ 2 ^ 32)

/-- The probed addresses of the block, in ascending order, excluding the
network address (`base`) and the broadcast address (`base + size - 1`). -/
def Cidr.hostAddresses (c : Cidr) : List Nat :=
  (List.range (c.size - 2)).map (fun i => c.base + 1 + i)

/-- Modelled from the spec: discovery error for malformed input. -/
inductive DiscoverError
  | invalidRange
deriving DecidableEq, Repr

/-- Modelled from the spec: `Discover(range)` — reject a malformed CIDR
before any probing; otherwise probe every host address of the block once on
the camera-protocol port (`probe` is the network: the brand fingerprint of
a responding camera, or `none` for timeout/no response, which is silently
dropped), aggregating the responders in ascending address order. -/
def discover (c : Cidr) (probe : Nat → Option String) :
    Except DiscoverError (List ProbeCandidate) :=
  if c.valid then
    .ok ((c.hostAddresses).filterMap
      (fun a => (probe a).map (fun b => ⟨a, RTSP_PORT, b⟩)))
  else
    .error .invalidRange

/-- C7: for every accepted CIDR range and every network behavior, the
candidates returned by `Discover` all lie inside the range, are sorted in
strictly ascending address order, and no two carry the same
`(host, port)` pair. -/
theorem discover_in_range_sorted_nodup (c : Cidr) (probe : Nat → Option String)
    (cands : List ProbeCandidate) (h : discover c probe = .ok cands) :
    (∀ x ∈ cands, c.base ≤ x.host ∧ x.host < c.base + c.size) ∧
      cands.Pairwise (fun p q => p.host < q.host) ∧
      cands.Pairwise (fun p q => (p.host, p.port) ≠ (q.host, q.port)) := by
  have hcands : cands = (c.hostAddresses).filterMap
      (fun a => (probe a).map (fun b => ⟨a, RTSP_PORT, b⟩)) := by
    unfold discover at h
    by_cases hv : c.valid
    · rw [if_pos hv] at h
      exact (Except.ok.inj h).symm
    · rw [if_neg hv] at h
      exact Except.noConfusion h
  have hhost : ∀ x ∈ cands, x.host ∈ c.hostAddresses := by
    intro x hx
    rw [hcands] at hx
    obtain ⟨a, ha, hfa⟩ := List.mem_filterMap.mp hx
    cases hp : probe a with
    | none => rw [hp] at hfa; exact absurd hfa (by simp)
    | some b =>
      rw [hp] at hfa
      simp only [Option.map_some', Option.some.injEq] at hfa
      rw [← hfa]
      exact ha
  have hrange : ∀ x ∈ cands, c.base ≤ x.host ∧ x.host < c.base + c.size := by
    intro x hx
    have hmem := hhost x hx
    simp only [Cidr.hostAddresses, List.mem_map, List.mem_range] at hmem
    obtain ⟨i, hi, hix⟩ := hmem
    constructor
    · omega
    · have : i < c.size - 2 := hi
      omega
  have hsorted : cands.Pairwise (fun p q => p.host < q.host) := by
    rw [hcands]
    rw [List.pairwise_filterMap]
    have hbase : (c.hostAddresses).Pairwise (· < ·) := by
      unfold Cidr.hostAddresses
      rw [List.pairwise_map]
      exact (List.pairwise_lt_range _).imp (by omega)
    refine hbase.imp ?_
    intro a b hab x hx y hy
    cases hp : probe a with
    | none => rw [hp] at hx; exact absurd hx (by simp)
    | some ba =>
      cases hq : probe b with
      | none => rw [hq] at hy; exact absurd hy (by simp)
      | some bb =>
        rw [hp] at hx
        rw [hq] at hy
        simp only [Option.map_some', Option.mem_def, Option.some.injEq] at hx hy
        rw [← hx, ← hy]
        exact hab
  refine ⟨hrange, hsorted, hsorted.imp ?_⟩
  intro p q hpq hcontra
  rw [Prod.mk.injEq] at hcontra
  omega

/-- C7 witness: discovering 10.0.0.0/30 against a network where only
10.0.0.1 responds yields exactly the candidate for 10.0.0.1, in range,
sorted, without duplicate pairs. -/
theorem discover_in_range_sorted_nodup_witness :
    (∀ x ∈ [(⟨167772161, 554, "dahua"⟩ : ProbeCandidate)],
        (⟨167772160, 30⟩ : Cidr).base ≤ x.host ∧
          x.host < (⟨167772160, 30⟩ : Cidr).base + (⟨167772160, 30⟩ : Cidr).size) ∧
      List.Pairwise (fun p q => p.host < q.host)
        [(⟨167772161, 554, "dahua"⟩ : ProbeCandidate)] ∧
      List.Pairwise (fun p q => (p.host, p.port) ≠ (q.host, q.port))
        [(⟨167772161, 554, "dahua"⟩ : ProbeCandidate)] :=
  discover_in_range_sorted_nodup ⟨167772160, 30⟩
    (fun a => if a = 167772161 then some "dahua" else none)
    [⟨167772161, 554, "dahua"⟩] (by rfl)

/-! ## API base URL selection (`getApiBaseUrl`, src/unnamed/part_002) -/

/-- The result of JS `new URL(...)`: the fields the module reads. `port` is
the empty string for a default port. -/
structure JsUrl where
  protocol : String
  hostname : String
  port : String
deriving DecidableEq, Repr

/-- `window.location` as read by the module. -/
structure BrowserLoc where
  protocol : String
  hostname : String
  port : String
  origin : String
deriving DecidableEq, Repr

/-- The browser context of one `getApiBaseUrl` evaluation: the page
location, the stored `jarvis_api_url` (if the key exists), whether
`localStorage.getItem` throws (restricted storage), and the URL-parse
oracle standing for the `new URL` constructor (`none` = constructor threw). -/
structure BrowserEnv where
  loc : BrowserLoc
  savedApiUrl : Option String
  storageThrows : Bool
  parse : String → Option JsUrl

/-- `FRONTEND_DEV_PORTS = new Set(['3000', '5173', '5501'])`. -/
def FRONTEND_DEV_PORTS : List String := ["3000", "5173", "5501"]

/-- `looksLikeFrontendDevOrigin = (url) => FRONTEND_DEV_PORTS.has(url.port)`. -/
def looksLikeFrontendDevOrigin (u : JsUrl) : Bool :=
  FRONTEND_DEV_PORTS.contains u.port

/-- `getLanBackendFallback` in a browser context:
`protocol + '//' + hostname + ':8101'`. -/
def getLanBackendFallback (env : BrowserEnv) : String :=
  env.loc.protocol ++ "//" ++ env.loc.hostname ++ ":8101"

/-- The storage branch of `getApiBaseUrl` (lines 39-51): the saved URL is
used only when storage is readable, the saved value trims to a non-empty
string, and that trimmed string parses to a URL that does not look like a
frontend dev origin; the *untrimmed* saved string is what gets returned. -/
def savedCandidate (env : BrowserEnv) : Option String :=
  if env.storageThrows then none
  else
    match env.savedApiUrl with
    | some savedUrl =>
      if jsTrim savedUrl = "" then none
      else
        match env.parse (jsTrim savedUrl) with
        | some parsedSaved =>
          if looksLikeFrontendDevOrigin parsedSaved then none else some savedUrl
        | none => none
    | none => none

/-- `getApiBaseUrl` (lines 35-62) in a browser context: the accepted saved
URL wins; otherwise a page served from a dev-server origin is redirected to
the LAN backend fallback; otherwise the page's own origin. -/
def getApiBaseUrl (env : BrowserEnv) : String :=
  match savedCandidate env with
  | some s => s
  | none =>
    match env.parse env.loc.origin with
    | some currentUrl =>
      if looksLikeFrontendDevOrigin currentUrl then getLanBackendFallback env
      else env.loc.origin
    | none => env.loc.origin

theorem savedCandidate_none_of_dev (env : BrowserEnv) (s : String) (u : JsUrl)
    (hs : env.savedApiUrl = some s) (hp : env.parse (jsTrim s) = some u)
    (hu : looksLikeFrontendDevOrigin u = true) : savedCandidate env = none := by
  by_cases ht : env.storageThrows <;> simp [savedCandidate, ht, hs, hp, hu]

theorem savedCandidate_none_of_no_saved (env : BrowserEnv)
    (hs : env.savedApiUrl = none) : savedCandidate env = none := by
  by_cases ht : env.storageThrows <;> simp [savedCandidate, ht, hs]

theorem savedCandidate_spec (env : BrowserEnv) (s : String)
    (h : savedCandidate env = some s) :
    env.savedApiUrl = some s ∧
      ∃ u, env.parse (jsTrim s) = some u ∧ looksLikeFrontendDevOrigin u = false := by
  by_cases ht : env.storageThrows
  · unfold savedCandidate at h
    rw [if_pos ht] at h
    exact Option.noConfusion h
  · unfold savedCandidate at h
    rw [if_neg ht] at h
    cases hsv : env.savedApiUrl with
    | none => rw [hsv] at h; exact Option.noConfusion h
    | some sv =>
      rw [hsv] at h
      change (if jsTrim sv = "" then none
        else match env.parse (jsTrim sv) with
          | some parsedSaved =>
            if looksLikeFrontendDevOrigin parsedSaved then none else some sv
          | none => none) = some s at h
      by_cases he : jsTrim sv = ""
      · rw [if_pos he] at h
        exact Option.noConfusion h
      · rw [if_neg he] at h
        cases hp : env.parse (jsTrim sv) with
        | none => rw [hp] at h; exact Option.noConfusion h
        | some u =>
          rw [hp] at h
          change (if looksLikeFrontendDevOrigin u then none else some sv) = some s at h
          by_cases hd : looksLikeFrontendDevOrigin u
          · rw [if_pos hd] at h
            exact Option.noConfusion h
          · rw [if_neg hd] at h
            obtain rfl : sv = s := Option.some.inj h
            exact ⟨rfl, u, hp, by simpa using hd⟩

/-- C9: in a browser context `getApiBaseUrl` never picks a frontend
dev-server port. A saved `jarvis_api_url` parsing to one of the dev ports
3000/5173/5501 is ignored — the result is as if no URL were saved; an
accepted saved URL is returned as stored and parses to a non-dev port; when
the page's own origin is served from a dev port the result is the page's
hostname on backend port 8101; and otherwise the result is the page's own
origin, whose parse, if any, is not a dev port. -/
theorem getApiBaseUrl_avoids_dev_ports (env : BrowserEnv) :
    (∀ s u, env.savedApiUrl = some s → env.parse (jsTrim s) = some u →
      looksLikeFrontendDevOrigin u = true →
      getApiBaseUrl env = getApiBaseUrl { env with savedApiUrl := none }) ∧
      (∀ s, savedCandidate env = some s →
        getApiBaseUrl env = s ∧
          ∃ u, env.parse (jsTrim s) = some u ∧ looksLikeFrontendDevOrigin u = false) ∧
      (∀ u, savedCandidate env = none → env.parse env.loc.origin = some u →
        looksLikeFrontendDevOrigin u = true →
        getApiBaseUrl env = env.loc.protocol ++ "//" ++ env.loc.hostname ++ ":8101") ∧
      (savedCandidate env = none →
        (∀ u, env.parse env.loc.origin = some u → looksLikeFrontendDevOrigin u = false) →
        getApiBaseUrl env = env.loc.origin) := by
  refine ⟨?_, ?_, ?_, ?_⟩
  · intro s u hs hp hu
    have h1 : savedCandidate env = none := savedCandidate_none_of_dev env s u hs hp hu
    have h2 : savedCandidate { env with savedApiUrl := none } = none :=
      savedCandidate_none_of_no_saved _ rfl
    unfold getApiBaseUrl
    rw [h1, h2]
    rfl
  · intro s hsc
    refine ⟨?_, (savedCandidate_spec env s hsc).2⟩
    unfold getApiBaseUrl
    rw [hsc]
  · intro u hsc hp hu
    unfold getApiBaseUrl
    rw [hsc]
    simp [hp, hu, getLanBackendFallback]
  · intro hsc hall
    unfold getApiBaseUrl
    rw [hsc]
    cases hp : env.parse env.loc.origin with
    | none => rfl
    | some u => simp [hall u hp]

/-- A concrete browser context: the page is served from the Vite dev origin
and the saved URL is that same dev origin. -/
def witnessEnv : BrowserEnv :=
  { loc := ⟨"http:", "192.168.1.50", "5173", "http://192.168.1.50:5173"⟩
    savedApiUrl := some "http://192.168.1.50:5173"
    storageThrows := false
    parse := fun s =>
      if s = "http://192.168.1.50:5173" then some ⟨"http:", "192.168.1.50", "5173"⟩
      else none }

/-- C9 witness: in the concrete dev-served context the saved dev URL is
ignored and the result is the LAN backend fallback on port 8101. -/
theorem getApiBaseUrl_avoids_dev_ports_witness :
    getApiBaseUrl witnessEnv = getApiBaseUrl { witnessEnv with savedApiUrl := none } ∧
      getApiBaseUrl witnessEnv
        = witnessEnv.loc.protocol ++ "//" ++ witnessEnv.loc.hostname ++ ":8101" :=
  ⟨(getApiBaseUrl_avoids_dev_ports witnessEnv).1 "http://192.168.1.50:5173"
      ⟨"http:", "192.168.1.50", "5173"⟩ rfl (by decide) (by decide),
    (getApiBaseUrl_avoids_dev_ports witnessEnv).2.2.1 ⟨"http:", "192.168.1.50", "5173"⟩
      (by decide) (by decide) (by decide)⟩

end Jarvis
